import Mathlib

/-!
Shallow embedding of the single-flight scraper job controller in
src/backend/scraper_manager.py, together with the run-store functions it
calls from src/backend/database.py (create_scraper_run, update_scraper_run).

Conventions:
* a LogCapture buffer is its list of stored lines (LogCapture.lines);
* the run store is the list of scraper_runs rows plus the next SERIAL id;
* a subscriber callback is modelled by its id and by whether invoking it
  raises (the only behaviour scraper_manager.py observes);
* exceptions are modelled by explicit outcome data: the behaviour of the Scrape
  Engine (normal return, ImportError, or a raised exception, each with
  the text it wrote to stdout/stderr first) and flags saying whether each
  update_scraper_run call raises;
* timestamps are reduced to the completed_at-is-set bit, the only part that
  the logic of the manager depends on.
-/

namespace ScraperMgr

/-! ### Python string primitives used by LogCapture and the manager -/

/-- ASCII whitespace as recognised by Python str.strip with no argument
(space, tab, newline, carriage return, vertical tab, form feed). -/
def pyIsSpace (c : Char) : Bool :=
  c == ' ' || c == '\t' || c == '\n' || c == '\r' || c == '\x0b' || c == '\x0c'

/-- Truthiness test of message.strip(): true when the string is empty or
whitespace-only, i.e. when the strip result is falsy. -/
def pyBlank (s : String) : Bool :=
  s.data.all pyIsSpace

/-- Python str.rstrip applied with the single character newline, as in
message.rstrip in LogCapture.write: drops trailing newline characters only. -/
def rstripNewlines (s : String) : String :=
  ⟨(s.data.reverse.dropWhile (fun c => c == '\n')).reverse⟩

/-! ### LogCapture (scraper_manager.py lines 23-43) -/

namespace LogCapture

/-- LogCapture.write: append message.rstrip of newlines when message.strip()
is truthy, otherwise leave the buffer unchanged. -/
def write (lines : List String) (message : String) : List String :=
  if pyBlank message then lines else lines ++ [rstripNewlines message]

/-- LogCapture.get_logs: join the stored lines with newlines. -/
def get_logs (lines : List String) : String :=
  String.intercalate "\n" lines

end LogCapture

/-! ### Counting re.findall r-Processing story digits (line 201) -/

/-- Literal part of the pattern used at scraper_manager.py line 201. -/
def storyPat : List Char := "Processing story ".data

/-- Match a literal pattern at the head of a character list, returning the
remainder on success. -/
def dropPat : List Char → List Char → Option (List Char)
  | [], s => some s
  | _ :: _, [] => none
  | p :: ps, c :: cs => if p = c then dropPat ps cs else none

/-- Fuelled scan counting the non-overlapping, left-to-right matches of the
literal pattern followed by one or more digits, exactly as re.findall does
for the pattern at line 201 (the greedy digit group consumes maximally). -/
def countStoryAux : Nat → List Char → Nat
  | 0, _ => 0
  | _ + 1, [] => 0
  | fuel + 1, c :: cs =>
    match dropPat storyPat (c :: cs) with
    | some (d :: ds) =>
      if d.isDigit then 1 + countStoryAux fuel (ds.dropWhile Char.isDigit)
      else countStoryAux fuel cs
    | _ => countStoryAux fuel cs

/-- Number of matches of the progress marker found by line 201; each step of
the scan consumes at least one character, so the string length is enough
fuel. -/
def countProcessingStory (s : String) : Nat :=
  countStoryAux s.length s.data

/-! ### Run records and the run store (database.py lines 146-174) -/

/-- Config dict recorded at trigger time (scraper_manager.py lines 115-119). -/
structure RunConfig where
  limit : Nat
  story_types : List String
  force_ipv4 : Bool
deriving Repr, DecidableEq

/-- Row of the scraper_runs table, with completed_at reduced to whether it
has been set. -/
structure RunRecord where
  id : Nat
  status : String
  trigger_type : String
  triggered_by : String
  stories_processed : Nat
  errors_count : Nat
  logs : Option String
  error_message : Option String
  config : RunConfig
  completed_at_set : Bool
deriving Repr, DecidableEq

/-- In-memory image of the scraper_runs table plus its id sequence. -/
structure RunStore where
  records : List RunRecord
  nextId : Nat
deriving Repr, DecidableEq

/-- create_scraper_run (database.py lines 146-156): insert a row with
status running, returning the fresh id. -/
def create_scraper_run (store : RunStore) (trigger_type : String)
    (triggered_by : String) (config : RunConfig) : Nat × RunStore :=
  (store.nextId,
   ⟨store.records ++
      [⟨store.nextId, "running", trigger_type, triggered_by, 0, 0, none, none,
        config, false⟩],
    store.nextId + 1⟩)

/-- update_scraper_run (database.py lines 159-174): set status, counters,
logs and error_message on the matching row and stamp completed_at. Callers
omitting the count arguments get the Python defaults of zero. -/
def update_scraper_run (store : RunStore) (run_id : Nat) (status : String)
    (stories_processed : Nat) (errors_count : Nat)
    (logs : Option String) (error_message : Option String) : RunStore :=
  ⟨store.records.map (fun r =>
      if r.id = run_id then
        ⟨r.id, status, r.trigger_type, r.triggered_by, stories_processed,
          errors_count, logs, error_message, r.config, true⟩
      else r),
    store.nextId⟩

/-- Lookup of a run row by id. -/
def findRun (store : RunStore) (run_id : Nat) : Option RunRecord :=
  store.records.find? (fun r => r.id = run_id)

/-! ### Subscribers and notification fan-out (lines 68-88) -/

/-- A registered callback, identified by an id and by whether calling it
raises an exception (the only aspect of it that the manager code can observe). -/
structure Subscriber where
  sid : Nat
  raises : Bool
deriving Repr, DecidableEq

/-- Status message published to subscribers (the dict literals at lines
140-144, 215-221, 235-240 and 265-269). The run id is optional because
cancel_scrape reads get_current_run_id, which can be none. -/
structure StatusEvent where
  run_id : Option Nat
  status : String
  stories_processed : Option Nat
  errors_count : Option Nat
  error_message : Option String
deriving Repr, DecidableEq

/-- Invoking one callback: raises iff the callback of the subscriber raises. -/
def runCallback (s : Subscriber) (_e : StatusEvent) : Except String Unit :=
  if s.raises then .error "subscriber error" else .ok ()

/-- The for-loop of _notify_subscribers (lines 84-88): each callback is
invoked inside try/except, so a raising callback is logged and the loop
continues. Returns the ids that received the event and the ids whose
exception was caught and logged. -/
def notifyLoop (e : StatusEvent) : List Subscriber → List Nat × List Nat
  | [] => ([], [])
  | s :: rest =>
    match runCallback s e with
    | .ok _ =>
      let t := notifyLoop e rest
      (s.sid :: t.1, t.2)
    | .error _ =>
      let t := notifyLoop e rest
      (s.sid :: t.1, s.sid :: t.2)

/-! ### Manager state (lines 46-88) -/

/-- Mutable fields of ScraperManager. current_thread is none when the slot
is empty and some alive when a thread object is present, alive being the
value its is_alive method returns. log_lines is the buffer of the bound
LogCapture, none when no capture is bound. -/
structure ManagerState where
  current_run_id : Option Nat
  current_thread : Option Bool
  log_lines : Option (List String)
  cancel_flag : Bool
  subscribers : List Subscriber
deriving Repr, DecidableEq

/-- is_running (lines 58-61): the thread slot is occupied and alive. -/
def is_running (st : ManagerState) : Bool :=
  match st.current_thread with
  | some alive => alive
  | none => false

/-- get_current_run_id (lines 63-66). -/
def get_current_run_id (st : ManagerState) : Option Nat :=
  st.current_run_id

/-- _notify_subscribers (lines 79-88): snapshot the subscriber list under
the lock, then invoke each callback of the snapshot outside the lock. -/
def notify_subscribers (st : ManagerState) (e : StatusEvent) :
    List Nat × List Nat :=
  let snapshot := st.subscribers
  notifyLoop e snapshot

/-! ### trigger_scrape (lines 90-146) -/

/-- Default story types substituted at line 112 when none are given. -/
def defaultStoryTypes : List String :=
  ["topstories", "newstories", "showstories", "askstories", "jobstories"]

/-- trigger_scrape (lines 90-146). Returns the RuntimeError or the new run
id, the manager state, the run store, and the published events paired with
the list of subscriber ids each was delivered to. On the error path nothing
was executed beyond the is_running check, so state and store come back
unchanged and no event is published. On success: the row is created, then
under the lock the run id is stored, the cancel flag reset, a fresh
LogCapture bound and the worker thread started (current_thread becomes some
alive), then the running status event is published. -/
def trigger_scrape (st : ManagerState) (store : RunStore) (limit : Nat)
    (story_types : Option (List String)) (username : String)
    (force_ipv4 : Bool) :
    Except String Nat × ManagerState × RunStore ×
      List (StatusEvent × List Nat) :=
  if is_running st then
    (.error "Scraper is already running", st, store, [])
  else
    let types := story_types.getD defaultStoryTypes
    let config : RunConfig := ⟨limit, types, force_ipv4⟩
    let cr := create_scraper_run store "manual" username config
    let run_id := cr.1
    let store2 := cr.2
    let st2 : ManagerState :=
      { st with
        current_run_id := some run_id
        cancel_flag := false
        log_lines := some []
        current_thread := some true }
    let ev : StatusEvent := ⟨some run_id, "running", none, none, none⟩
    let d := notify_subscribers st2 ev
    (.ok run_id, st2, store2, [(ev, d.1)])

/-! ### The worker body _run_scraper (lines 148-247) -/

/-- Behaviour of one invocation of the Scrape Engine (scrape_main under the
redirected streams), as observed by the worker: the text it writes to the
capture, and whether it returns, fails to import, or raises. -/
inductive EngineBehavior
  | ok (writes : List String)
  | importErr (writes : List String) (msg : String)
  | raises (writes : List String) (msg : String)
deriving Repr, DecidableEq

/-- _run_scraper (lines 148-247). buf0 is the content of the local alias
log_capture taken at line 158 (always the fresh empty capture bound by
trigger_scrape); upd1 is some m when the first update_scraper_run call (line
205) raises an exception whose text is m, and upd2Fails says whether the
second call (line 228, inside the outer except) raises too. Returns the
manager state after the finally block, the run store, the published events
with their recipients, and whether an exception escaped the thread body.

The inner try (lines 163-194) catches ImportError and any other exception
from the engine, appending an ERROR line to the capture and counting one
error; either way execution continues at line 197: the logs are joined, the
story markers counted, and the row updated with status completed. Only an
exception raised after the inner try — here, a failing first update —
reaches the outer except (lines 223-240), which rewrites the row as failed
with the Python default counts of zero. The finally block (lines 242-247)
clears the run id, the thread slot and the capture in every case. -/
def run_scraper (eng : EngineBehavior) (upd1 : Option String)
    (upd2Fails : Bool) (run_id : Nat) (buf0 : List String)
    (st : ManagerState) (store : RunStore) :
    ManagerState × RunStore × List (StatusEvent × List Nat) × Bool :=
  let inner : List String × Nat :=
    match eng with
    | .ok writes => (writes.foldl LogCapture.write buf0, 0)
    | .importErr writes msg =>
      (LogCapture.write (writes.foldl LogCapture.write buf0)
        ("ERROR: Could not import scrape_hn module: " ++ msg), 1)
    | .raises writes msg =>
      (LogCapture.write (writes.foldl LogCapture.write buf0)
        ("ERROR: Scraper failed: " ++ msg), 1)
  let buf := inner.1
  let errors := inner.2
  let logs := LogCapture.get_logs buf
  let stories := countProcessingStory logs
  let body : RunStore × List (StatusEvent × List Nat) × Bool :=
    match upd1 with
    | none =>
      let store2 :=
        update_scraper_run store run_id "completed" stories errors
          (some logs) none
      let ev : StatusEvent :=
        ⟨some run_id, "completed", some stories, some errors, none⟩
      (store2, [(ev, (notify_subscribers st ev).1)], false)
    | some m =>
      if upd2Fails then
        (store, [], true)
      else
        let store2 :=
          update_scraper_run store run_id "failed" 0 0 (some logs) (some m)
        let ev : StatusEvent := ⟨some run_id, "failed", none, none, some m⟩
        (store2, [(ev, (notify_subscribers st ev).1)], false)
  let stFinal : ManagerState :=
    { st with
      current_run_id := none
      current_thread := none
      log_lines := none }
  (stFinal, body.1, body.2.1, body.2.2)

/-! ### cancel_scrape (lines 249-271) and wait_for_completion (273-287) -/

/-- cancel_scrape (lines 249-271): returns false at once when no run is
alive; otherwise sets the cooperative cancel flag under the lock, reads the
current run id and publishes a cancelled status event. The thread slot is
never touched. -/
def cancel_scrape (st : ManagerState) :
    Bool × ManagerState × List (StatusEvent × List Nat) :=
  if is_running st then
    let st2 := { st with cancel_flag := true }
    let rid := get_current_run_id st2
    let ev : StatusEvent := ⟨rid, "cancelled", none, none, none⟩
    (true, st2, [(ev, (notify_subscribers st2 ev).1)])
  else
    (false, st, [])

/-- wait_for_completion (lines 273-287): when current_thread is None the
call returns True immediately; otherwise it joins with the given timeout and
returns the negation of is_alive afterwards — aliveAfterJoin supplies that
time-dependent reading. -/
def wait_for_completion (st : ManagerState) (_timeout : Option Nat)
    (aliveAfterJoin : Bool) : Bool :=
  match st.current_thread with
  | none => true
  | some _ => !aliveAfterJoin

/-! ### Sequential trace semantics

Public calls and the termination of the worker, as atomic steps on the combined
state. The finish step fires only when a worker is active; it replays
_run_scraper with the run id and capture bound by the trigger that started
it. -/

/-- Combined system state: manager, run store, and the log of published
events with the subscriber ids each was delivered to, oldest first. -/
structure SysState where
  mgr : ManagerState
  store : RunStore
  events : List (StatusEvent × List Nat)
deriving Repr, DecidableEq

/-- One observable step at the public surface of the manager. -/
inductive Op
  | trig (limit : Nat) (story_types : Option (List String))
      (username : String) (force_ipv4 : Bool)
  | cancel
  | finish (eng : EngineBehavior) (upd1 : Option String) (upd2Fails : Bool)
deriving Repr, DecidableEq

/-- Apply one step. A finish with no live worker is a no-op. -/
def stepOp (s : SysState) : Op → SysState
  | .trig limit story_types username force_ipv4 =>
    let r := trigger_scrape s.mgr s.store limit story_types username force_ipv4
    ⟨r.2.1, r.2.2.1, s.events ++ r.2.2.2⟩
  | .cancel =>
    let r := cancel_scrape s.mgr
    ⟨r.2.1, s.store, s.events ++ r.2.2⟩
  | .finish eng upd1 upd2Fails =>
    if is_running s.mgr then
      match s.mgr.current_run_id with
      | some rid =>
        let r := run_scraper eng upd1 upd2Fails rid
          (s.mgr.log_lines.getD []) s.mgr s.store
        ⟨r.1, r.2.1, s.events ++ r.2.2.1⟩
      | none => s
    else s

/-- Run a list of steps from a state. -/
def runTrace (s : SysState) (ops : List Op) : SysState :=
  ops.foldl stepOp s

/-- Fresh system: idle manager with the given subscribers, empty store with
ids starting at 1, no events. -/
def initSys (subs : List Subscriber) : SysState :=
  ⟨⟨none, none, none, false, subs⟩, ⟨[], 1⟩, []⟩

/-- Statuses of the events published for one run, in publication order. -/
def statusesForRun (s : SysState) (rid : Nat) : List String :=
  (s.events.filter (fun p => p.1.run_id = some rid)).map (fun p => p.1.status)

/-! ### Interleaving model of two concurrent trigger_scrape calls

trigger_scrape touches shared state in three separate atomic sections:
the is_running read (lines 58-61, its own lock acquisition), the
create_scraper_run insert (line 122, no lock held), and the with-lock block
that stores the run id and starts the thread (lines 128-137). The lock is
released between the first and the last of these, so two caller threads can
interleave between them. Each trigger call is modelled as that sequence of
three atomic steps; a schedule says which caller moves next. -/

/-- Progress of one caller through trigger_scrape: before the is_running
check; past the check having seen idle; past create_scraper_run holding its
fresh run id; past the with-lock launch block; or aborted by the
RuntimeError. -/
inductive TriggerPhase
  | start
  | checked
  | created
  | done
  | aborted
deriving Repr, DecidableEq

/-- One caller thread of the race model. -/
structure CallerView where
  phase : TriggerPhase
  myRun : Option Nat
deriving Repr, DecidableEq

/-- Shared state seen by two concurrent trigger_scrape calls: whether a
live worker thread occupies the slot (what is_running reads), the run
store, the two callers, and the run ids whose worker was started. -/
structure RaceState where
  threadLive : Bool
  store : RunStore
  t0 : CallerView
  t1 : CallerView
  launched : List Nat
deriving Repr, DecidableEq

/-- Fixed config used by both racing calls (its value is irrelevant to the
race). -/
def raceConfig : RunConfig := ⟨100, defaultStoryTypes, true⟩

/-- Advance one caller by its next atomic section. -/
def raceStep (s : RaceState) (i : Bool) : RaceState :=
  let t := if i then s.t1 else s.t0
  let put := fun (s2 : RaceState) (t2 : CallerView) =>
    if i then { s2 with t1 := t2 } else { s2 with t0 := t2 }
  match t.phase with
  | .start =>
    if s.threadLive then put s { t with phase := .aborted }
    else put s { t with phase := .checked }
  | .checked =>
    let cr := create_scraper_run s.store "manual" "admin" raceConfig
    put { s with store := cr.2 } { t with phase := .created, myRun := some cr.1 }
  | .created =>
    match t.myRun with
    | some rid =>
      put { s with threadLive := true, launched := s.launched ++ [rid] }
        { t with phase := .done }
    | none => s
  | .done => s
  | .aborted => s

/-- Run an interleaving schedule (false moves caller 0, true caller 1). -/
def runSchedule (s : RaceState) (sched : List Bool) : RaceState :=
  sched.foldl raceStep s

/-- Both callers about to enter trigger_scrape on an idle manager. -/
def raceInit : RaceState :=
  ⟨false, ⟨[], 1⟩, ⟨.start, none⟩, ⟨.start, none⟩, []⟩

/-! ### Claim-shape predicates and concrete fixtures -/

/-- Terminal statuses of the run lifecycle. -/
def isTerminalStatus (s : String) : Bool :=
  s == "completed" || s == "failed" || s == "cancelled"

/-- Shape asserted by the notification claim for the status sequence of one
run: exactly one running notification followed by exactly one
terminal-status notification and nothing else. -/
def runNotifShape : List String → Bool
  | [a, b] => a == "running" && isTerminalStatus b
  | _ => false

/-- Write operation as the buffer claim words it: the text itself is
appended whenever it is not blank. Stated from the claim for comparison
with LogCapture.write, which is taken from the source. -/
def writeClaimed (lines : List String) (text : String) : List String :=
  if pyBlank text then lines else lines ++ [text]

/-- Steps that may occur while a worker is live: public calls only. -/
def isMidOp : Op → Bool
  | .trig _ _ _ _ => true
  | .cancel => true
  | .finish _ _ _ => false

/-- Recognizes the cancel step. -/
def isCancelOp : Op → Bool
  | .cancel => true
  | _ => false

/-- Config of the concrete scenarios. -/
def demoConfig : RunConfig := ⟨50, ["topstories"], true⟩

/-- Manager state while run 1 is live, with one well-behaved subscriber. -/
def demoRunning : ManagerState :=
  ⟨some 1, some true, some [], false, [⟨0, false⟩]⟩

/-- Store holding the freshly created row of run 1. -/
def demoStore : RunStore :=
  ⟨[⟨1, "running", "manual", "admin", 0, 0, none, none, demoConfig, false⟩], 2⟩

/-- Trace in which run 1 receives a cancellation request and then finishes
normally. -/
def demoCancelTrace : List Op :=
  [.trig 50 (some ["topstories"]) "admin" true, .cancel,
   .finish (.ok []) none false]

/-- Interleaving of two trigger_scrape calls in which both callers pass the
is_running check before either reaches the launch section. -/
def demoSchedule : List Bool := [false, true, false, false, true, true]

/-- Run store after the worker of run 1 sees the engine raise an exception
whose text is network timeout, with the terminal update succeeding. -/
def demoNetworkTimeout : RunStore :=
  (run_scraper (.raises [] "network timeout") none false 1 [] demoRunning
    demoStore).2.1

/-! ### Helper lemmas -/

/-- The notification loop invokes every callback of the snapshot, whether or
not earlier callbacks raised. -/
lemma notifyLoop_fst (e : StatusEvent) :
    ∀ subs : List Subscriber, (notifyLoop e subs).1 = subs.map Subscriber.sid
  | [] => rfl
  | s :: rest => by
    by_cases h : s.raises = true <;>
      simp [notifyLoop, runCallback, h, notifyLoop_fst e rest]

/-- The notification loop logs exactly the raising callbacks. -/
lemma notifyLoop_snd (e : StatusEvent) :
    ∀ subs : List Subscriber,
      (notifyLoop e subs).2 = (subs.filter Subscriber.raises).map Subscriber.sid
  | [] => rfl
  | s :: rest => by
    by_cases h : s.raises = true <;>
      simp [notifyLoop, runCallback, h, notifyLoop_snd e rest]

/-- Updating a run rewrites exactly the looked-up row. -/
lemma findRun_update (store : RunStore) (run_id : Nat) (status : String)
    (sp ec : Nat) (lg em : Option String) :
    findRun (update_scraper_run store run_id status sp ec lg em) run_id =
      (findRun store run_id).map (fun r =>
        ⟨r.id, status, r.trigger_type, r.triggered_by, sp, ec, lg, em,
          r.config, true⟩) := by
  unfold findRun update_scraper_run
  induction store.records with
  | nil => rfl
  | cons r rs ih =>
    by_cases h : r.id = run_id <;> simp [List.find?, h, ih]

/-- A string starting with a non-space character is not blank. -/
lemma pyBlank_err (head msg : String) (c : Char) (rest : List Char)
    (hhead : head.data = c :: rest) (hc : pyIsSpace c = false) :
    pyBlank (head ++ msg) = false := by
  simp [pyBlank, String.data_append, hhead, hc]

/-- Writing a non-blank message appends its stripped form. -/
lemma write_nonblank (lines : List String) (m : String)
    (h : pyBlank m = false) :
    LogCapture.write lines m = lines ++ [rstripNewlines m] := by
  simp [LogCapture.write, h]

/-- Folding a sequence of writes appends the stripped non-blank inputs in
order. -/
lemma foldl_write (texts : List String) :
    ∀ lines : List String,
      texts.foldl LogCapture.write lines =
        lines ++ (texts.filter (fun t => !pyBlank t)).map rstripNewlines := by
  induction texts with
  | nil => intro lines; simp
  | cons t ts ih =>
    intro lines
    by_cases h : pyBlank t = true <;>
      simp [LogCapture.write, h, ih, List.append_assoc]

/-! ### Trace lemmas for the notification sequence -/

/-- Filtering a replicated list keeps all of it or none of it. -/
lemma filter_replicate_eq (n : Nat) (x : α) (p : α → Bool) :
    (List.replicate n x).filter p =
      if p x then List.replicate n x else [] := by
  induction n with
  | zero => simp
  | succ n ih =>
    by_cases h : p x = true <;> simp [List.replicate_succ, List.filter, h, ih]

/-- While a worker is live, public steps leave the manager running on the
same run and the store untouched; each granted cancel appends one cancelled
event for the current run delivered to all subscribers, and a rejected
trigger appends nothing. -/
lemma runTrace_mid (subs : List Subscriber) (rid : Nat)
    (ll : Option (List String)) :
    ∀ (mids : List Op), (∀ op ∈ mids, isMidOp op = true) →
      ∀ (flag : Bool) (store : RunStore)
        (evs : List (StatusEvent × List Nat)),
      runTrace ⟨⟨some rid, some true, ll, flag, subs⟩, store, evs⟩ mids =
        ⟨⟨some rid, some true, ll, flag || mids.any isCancelOp, subs⟩, store,
          evs ++ List.replicate (mids.countP (fun op => isCancelOp op))
            (⟨some rid, "cancelled", none, none, none⟩,
              subs.map Subscriber.sid)⟩ := by
  intro mids
  induction mids with
  | nil => intro _ flag store evs; simp [runTrace]
  | cons op mids ih =>
    intro h flag store evs
    have hop : isMidOp op = true := h op (List.mem_cons_self op mids)
    have hrest : ∀ op ∈ mids, isMidOp op = true := fun o ho =>
      h o (List.mem_cons_of_mem op ho)
    cases op with
    | trig l t u f =>
      have hstep : stepOp ⟨⟨some rid, some true, ll, flag, subs⟩, store, evs⟩
          (Op.trig l t u f) =
          ⟨⟨some rid, some true, ll, flag, subs⟩, store, evs⟩ := by
        simp [stepOp, trigger_scrape, is_running]
      rw [runTrace, List.foldl_cons, hstep, ← runTrace, ih hrest]
      simp [isCancelOp]
    | cancel =>
      have hstep : stepOp ⟨⟨some rid, some true, ll, flag, subs⟩, store, evs⟩
          Op.cancel =
          ⟨⟨some rid, some true, ll, true, subs⟩, store,
            evs ++ [(⟨some rid, "cancelled", none, none, none⟩,
              subs.map Subscriber.sid)]⟩ := by
        simp [stepOp, cancel_scrape, is_running, get_current_run_id,
          notify_subscribers, notifyLoop_fst]
      rw [runTrace, List.foldl_cons, hstep, ← runTrace, ih hrest]
      simp [isCancelOp, List.replicate_succ, List.countP_cons]
    | finish e u1 u2 =>
      simp [isMidOp] at hop

/-! ### Claim theorems -/

/-- C2: however the worker body terminates — normal engine return, engine
exception, a failing terminal update (even on both attempts), or with a
cancellation requested — the finally block leaves the active-run slot, the
thread pointer and the LogCapture cleared, so is_running is false and
get_current_run_id is none afterwards. -/
theorem C2_worker_always_clears (eng : EngineBehavior) (upd1 : Option String)
    (upd2Fails : Bool) (run_id : Nat) (buf0 : List String)
    (st : ManagerState) (store : RunStore) :
    (run_scraper eng upd1 upd2Fails run_id buf0 st store).1.current_run_id
        = none ∧
    (run_scraper eng upd1 upd2Fails run_id buf0 st store).1.current_thread
        = none ∧
    (run_scraper eng upd1 upd2Fails run_id buf0 st store).1.log_lines
        = none ∧
    is_running (run_scraper eng upd1 upd2Fails run_id buf0 st store).1
        = false ∧
    get_current_run_id (run_scraper eng upd1 upd2Fails run_id buf0 st store).1
        = none := by
  refine ⟨rfl, rfl, rfl, ?_, rfl⟩
  simp [run_scraper, is_running]

/-- C3: a trigger_scrape call made while a run is live raises the
RuntimeError, returns no run id, creates no row in the run store, publishes
nothing, and leaves the manager state exactly as it was. -/
theorem C3_trigger_while_running_rejected (st : ManagerState)
    (store : RunStore) (limit : Nat) (story_types : Option (List String))
    (username : String) (force_ipv4 : Bool)
    (h : is_running st = true) :
    trigger_scrape st store limit story_types username force_ipv4 =
      (.error "Scraper is already running", st, store, []) := by
  simp [trigger_scrape, h]

/-- C3 witness: the rejection observed with run 1 live on the demo state. -/
theorem C3_witness :
    trigger_scrape demoRunning demoStore 50 none "admin" true =
      (.error "Scraper is already running", demoRunning, demoStore, []) :=
  C3_trigger_while_running_rejected demoRunning demoStore 50 none "admin"
    true (by decide)

/-- C7: cancel_scrape returns exactly is_running; when idle the state (in
particular the cancel flag) is untouched and nothing is published; when a
run is live the cooperative flag is set, a cancelled event is delivered to
all subscribers, and the thread slot is not touched in either case. -/
theorem C7_cancel_advisory (st : ManagerState) :
    cancel_scrape st =
      (is_running st,
       { st with cancel_flag := st.cancel_flag || is_running st },
       if is_running st then
         [(⟨st.current_run_id, "cancelled", none, none, none⟩,
           st.subscribers.map Subscriber.sid)]
       else []) ∧
    (cancel_scrape st).2.1.current_thread = st.current_thread := by
  by_cases h : is_running st = true <;>
    simp [cancel_scrape, h, get_current_run_id, notify_subscribers,
      notifyLoop_fst]

/-- C8: notification fan-out iterates the snapshot of the subscriber list
taken under the lock and delivers the event to every member of that
snapshot; a raising callback is caught and logged, never dropping delivery
to the others. -/
theorem C8_notify_isolates_exceptions (st : ManagerState) (e : StatusEvent) :
    (notify_subscribers st e).1 = st.subscribers.map Subscriber.sid ∧
    (notify_subscribers st e).2 =
      (st.subscribers.filter Subscriber.raises).map Subscriber.sid :=
  ⟨notifyLoop_fst e st.subscribers, notifyLoop_snd e st.subscribers⟩

/-- C9 counterexample: write does not append the given text itself — a
trailing newline is stripped first, so writing the one-line message
consisting of hello and a newline stores hello, not the claimed verbatim
text. -/
theorem C9_counterexample :
    LogCapture.write [] "hello\n" = ["hello"] ∧
    LogCapture.write [] "hello\n" ≠ writeClaimed [] "hello\n" := by
  decide

/-- C9 as amended: write appends the text with its trailing newline
characters stripped when the text is not blank, a blank or whitespace-only
text leaves the buffer unchanged, and after any sequence of writes get_logs
returns the newline-join of the stripped non-blank inputs in append
order. -/
theorem C9_write_strips_newlines (lines : List String) (text : String)
    (texts : List String) :
    LogCapture.write lines text =
      (if pyBlank text then lines else lines ++ [rstripNewlines text]) ∧
    LogCapture.get_logs (texts.foldl LogCapture.write lines) =
      String.intercalate "\n"
        (lines ++ (texts.filter (fun t => !pyBlank t)).map rstripNewlines) :=
  ⟨rfl, by rw [foldl_write]; rfl⟩

/-- C10: with no worker thread object present, wait_for_completion returns
true at once, for every timeout and whatever the rest of the state holds. -/
theorem C10_wait_no_thread (rid : Option Nat) (ll : Option (List String))
    (cf : Bool) (subs : List Subscriber) (timeout : Option Nat)
    (aliveAfterJoin : Bool) :
    wait_for_completion ⟨rid, none, ll, cf, subs⟩ timeout aliveAfterJoin
      = true :=
  rfl

/-- C1 counterexample: with the engine raising an exception whose text is
network timeout, the terminal row of run 1 is persisted with status
completed and error_message unset, not with status failed carrying the
captured message as the claim states; the failure is visible only in
errors_count and in the captured log line. -/
theorem C1_counterexample :
    findRun demoNetworkTimeout 1 =
      some ⟨1, "completed", "manual", "admin", 0, 1,
        some "ERROR: Scraper failed: network timeout", none, demoConfig,
        true⟩ ∧
    (findRun demoNetworkTimeout 1).map RunRecord.status ≠ some "failed" ∧
    (findRun demoNetworkTimeout 1).map RunRecord.error_message ≠
      some (some "network timeout") := by
  decide

/-- C1 as amended: when the Scrape Engine raises, the inner handler catches
the exception, appends the ERROR line to the capture and counts one error,
and the worker then persists the terminal row with status completed,
errors_count one and no error_message, the captured message surviving only
as the final log line; nothing escapes the worker body, so nothing can
reach the trigger_scrape caller. -/
theorem C1_engine_exception_completed (writes : List String) (msg : String)
    (upd2Fails : Bool) (run_id : Nat) (buf0 : List String)
    (st : ManagerState) (store : RunStore) (r : RunRecord)
    (h : findRun store run_id = some r) :
    (findRun (run_scraper (.raises writes msg) none upd2Fails run_id buf0 st
        store).2.1 run_id).map RunRecord.status = some "completed" ∧
    (findRun (run_scraper (.raises writes msg) none upd2Fails run_id buf0 st
        store).2.1 run_id).map RunRecord.errors_count = some 1 ∧
    (findRun (run_scraper (.raises writes msg) none upd2Fails run_id buf0 st
        store).2.1 run_id).map RunRecord.error_message = some none ∧
    (findRun (run_scraper (.raises writes msg) none upd2Fails run_id buf0 st
        store).2.1 run_id).map RunRecord.logs =
      some (some (LogCapture.get_logs
        (buf0 ++ (writes.filter (fun t => !pyBlank t)).map rstripNewlines ++
          [rstripNewlines ("ERROR: Scraper failed: " ++ msg)]))) ∧
    (run_scraper (.raises writes msg) none upd2Fails run_id buf0 st
        store).2.2.2 = false := by
  have hb : pyBlank ("ERROR: Scraper failed: " ++ msg) = false :=
    pyBlank_err "ERROR: Scraper failed: " msg 'E'
      "RROR: Scraper failed: ".data rfl (by decide)
  simp [run_scraper, findRun_update, h, foldl_write, LogCapture.write, hb,
    List.append_assoc]

/-- C1 witness: the amended behaviour observed on the concrete network
timeout scenario of run 1. -/
theorem C1_witness :
    (findRun demoNetworkTimeout 1).map RunRecord.status = some "completed" ∧
    (findRun demoNetworkTimeout 1).map RunRecord.errors_count = some 1 ∧
    (findRun demoNetworkTimeout 1).map RunRecord.error_message =
      some none := by
  have h := C1_engine_exception_completed [] "network timeout" false 1 []
    demoRunning demoStore
    ⟨1, "running", "manual", "admin", 0, 0, none, none, demoConfig, false⟩
    rfl
  exact ⟨h.1, h.2.1, h.2.2.1⟩

/-- C4: at the interleaving in which both callers execute the is_running
check before either reaches the with-lock launch section, both
trigger_scrape calls finish successfully: two worker threads are launched
and the store holds two rows in status running at once — the idle check is
not inside the critical section that marks and launches, so the
single-flight property fails. -/
theorem C4_race_two_running :
    (runSchedule raceInit demoSchedule).t0.phase = TriggerPhase.done ∧
    (runSchedule raceInit demoSchedule).t1.phase = TriggerPhase.done ∧
    (runSchedule raceInit demoSchedule).launched = [1, 2] ∧
    ((runSchedule raceInit demoSchedule).store.records.filter
        (fun r => r.status == "running")).length = 2 := by
  decide

/-- C5: on normal engine return with a successful terminal update, the row
is persisted with status completed, errors_count zero, and
stories_processed equal to the number of progress markers the line-201
pattern finds in the captured log text. -/
theorem C5_normal_return_counts_markers (writes : List String)
    (upd2Fails : Bool) (run_id : Nat) (buf0 : List String)
    (st : ManagerState) (store : RunStore) (r : RunRecord)
    (h : findRun store run_id = some r) :
    findRun (run_scraper (.ok writes) none upd2Fails run_id buf0 st
        store).2.1 run_id =
      some ⟨r.id, "completed", r.trigger_type, r.triggered_by,
        countProcessingStory (LogCapture.get_logs
          (writes.foldl LogCapture.write buf0)), 0,
        some (LogCapture.get_logs (writes.foldl LogCapture.write buf0)),
        none, r.config, true⟩ := by
  simp [run_scraper, findRun_update, h]

/-- C5 witness: an engine emitting exactly three progress markers yields
the terminal row status completed, stories_processed three, errors_count
zero. -/
theorem C5_witness_three_markers :
    findRun (run_scraper
        (.ok ["Processing story 101\n", "Processing story 102\n",
          "Processing story 103\n"]) none false 1 [] demoRunning
        demoStore).2.1 1 =
      some ⟨1, "completed", "manual", "admin", 3, 0,
        some
          "Processing story 101\nProcessing story 102\nProcessing story 103",
        none, demoConfig, true⟩ := by
  have h := C5_normal_return_counts_markers
    ["Processing story 101\n", "Processing story 102\n",
      "Processing story 103\n"] false 1 [] demoRunning demoStore
    ⟨1, "running", "manual", "admin", 0, 0, none, none, demoConfig, false⟩
    rfl
  exact h

/-- C6 counterexample: a run that receives a cancellation request and then
finishes normally publishes three status events — running, cancelled,
completed — so its notification sequence is not one running event followed
by exactly one terminal event with nothing else, as the claim states. -/
theorem C6_counterexample :
    statusesForRun (runTrace (initSys [⟨0, false⟩]) demoCancelTrace) 1 =
      ["running", "cancelled", "completed"] ∧
    runNotifShape
        (statusesForRun (runTrace (initSys [⟨0, false⟩]) demoCancelTrace) 1)
      = false := by
  decide

/-- C6 as amended: a triggered run publishes exactly one running event
first; each granted cancellation request while the run is live publishes
one additional cancelled event; the run then ends with exactly one terminal
completed or failed event — unless the terminal persistence update raises
on both attempts, in which case no terminal event is published — and every
published event is delivered to every subscriber registered before the run
started. -/
theorem C6_run_event_sequence (subs : List Subscriber) (limit : Nat)
    (story_types : Option (List String)) (username : String)
    (force_ipv4 : Bool) (mids : List Op) (eng : EngineBehavior)
    (upd1 : Option String) (upd2Fails : Bool)
    (h : ∀ op ∈ mids, isMidOp op = true) :
    statusesForRun
        (runTrace (initSys subs)
          (Op.trig limit story_types username force_ipv4 ::
            mids ++ [Op.finish eng upd1 upd2Fails])) 1 =
      "running" ::
        (List.replicate (mids.countP (fun op => isCancelOp op)) "cancelled"
          ++ match upd1 with
             | none => ["completed"]
             | some _ => if upd2Fails then [] else ["failed"]) ∧
    ∀ p ∈ (runTrace (initSys subs)
        (Op.trig limit story_types username force_ipv4 ::
          mids ++ [Op.finish eng upd1 upd2Fails])).events,
      p.2 = subs.map Subscriber.sid := by
  have hstep : stepOp (initSys subs)
      (Op.trig limit story_types username force_ipv4) =
      ⟨⟨some 1, some true, some [], false, subs⟩,
        ⟨[⟨1, "running", "manual", username, 0, 0, none, none,
          ⟨limit, story_types.getD defaultStoryTypes, force_ipv4⟩, false⟩],
          2⟩,
        [(⟨some 1, "running", none, none, none⟩,
          subs.map Subscriber.sid)]⟩ := by
    simp [stepOp, initSys, trigger_scrape, is_running, create_scraper_run,
      notify_subscribers, notifyLoop_fst]
  have hmid := runTrace_mid subs 1 (some []) mids h false
    ⟨[⟨1, "running", "manual", username, 0, 0, none, none,
      ⟨limit, story_types.getD defaultStoryTypes, force_ipv4⟩, false⟩], 2⟩
    [(⟨some 1, "running", none, none, none⟩, subs.map Subscriber.sid)]
  simp only [runTrace] at hmid
  simp only [runTrace, List.foldl_cons, List.foldl_append, List.foldl_nil,
    hstep, hmid]
  cases upd1 with
  | none =>
    constructor
    · simp [stepOp, is_running, run_scraper, statusesForRun,
        notify_subscribers, notifyLoop_fst, List.filter_append,
        filter_replicate_eq, List.map_replicate]
    · intro p hp
      simp [stepOp, is_running, run_scraper, notify_subscribers,
        notifyLoop_fst] at hp
      rcases hp with hp | hp | hp <;>
        first
          | rw [hp]
          | rw [hp.2]
  | some m =>
    cases upd2Fails with
    | false =>
      constructor
      · simp [stepOp, is_running, run_scraper, statusesForRun,
          notify_subscribers, notifyLoop_fst, List.filter_append,
          filter_replicate_eq, List.map_replicate]
      · intro p hp
        simp [stepOp, is_running, run_scraper, notify_subscribers,
          notifyLoop_fst] at hp
        rcases hp with hp | hp | hp <;>
          first
            | rw [hp]
            | rw [hp.2]
    | true =>
      constructor
      · simp [stepOp, is_running, run_scraper, statusesForRun,
          notify_subscribers, notifyLoop_fst, List.filter_append,
          filter_replicate_eq, List.map_replicate]
      · intro p hp
        simp [stepOp, is_running, run_scraper, notify_subscribers,
          notifyLoop_fst] at hp
        rcases hp with hp | hp <;>
          first
            | rw [hp]
            | rw [hp.2]

/-- C6 witness: with one subscriber whose callback raises, a run that is
cancelled once and then finishes normally with a successful update yields
the sequence running, cancelled, completed, each event delivered to that
subscriber. -/
theorem C6_witness :
    statusesForRun
        (runTrace (initSys [⟨0, true⟩])
          (Op.trig 50 none "admin" true ::
            [Op.cancel] ++ [Op.finish (.ok []) none false])) 1 =
      ["running", "cancelled", "completed"] ∧
    ∀ p ∈ (runTrace (initSys [⟨0, true⟩])
        (Op.trig 50 none "admin" true ::
          [Op.cancel] ++ [Op.finish (.ok []) none false])).events,
      p.2 = [0] :=
  C6_run_event_sequence [⟨0, true⟩] 50 none "admin" true [Op.cancel]
    (.ok []) none false (by decide)

end ScraperMgr
